import Mathlib

/-!
Verification model of `scripts/create-database.py`.

The script demonstrates SQL injection: an unsafe lookup builds the query by
f-string interpolation, a safe lookup binds the key as a parameter, and a
template-string sanitizer (`sanitize_sql`) decomposes a structured template
into placeholder query text plus positional arguments.

The embedding models the SQLite fragment the script actually exercises:

* a tokenizer faithful to SQLite lexing of the statements involved
  (single-quoted string literals with `''` escaping, `--` line comments,
  identifiers, digit runs, the punctuation used);
* a parser for the four statement shapes the script issues
  (`SELECT secret FROM users WHERE <cond>`, `INSERT INTO users(name, secret)
  VALUES(<lit>, <lit>)`, `DROP TABLE IF EXISTS users`, `CREATE TABLE IF NOT
  EXISTS users (...)`), with `WHERE` conditions being `=`-comparisons chained
  by `OR`, over the column names, string/number literals and `?` parameters;
  text after a terminating `;` other than comments is rejected the way
  `sqlite3.Cursor.execute` rejects a second statement;
* evaluation of those statements against the single `users` table.

Python-side values, template strings (`string.templatelib.Template`), and the
script's functions (`print_secrets`, `safe_print_secrets`, `sanitize_sql`,
`TStringCursor.better_execute`, `patched_print_secrets`, and the setup block)
are embedded below the SQL model.
-/

deriving instance DecidableEq for Except

/-- Tokens of the SQLite fragment used by the script. -/
inductive Tok where
  | ident (s : String)
  | lit (s : String)
  | num (s : String)
  | sym (c : Char)
deriving DecidableEq

/-- Skip the remainder of a `--` line comment. -/
def skipComment : List Char → List Char
  | [] => []
  | '\n' :: cs => cs
  | _ :: cs => skipComment cs

/-- Read a single-quoted SQL string literal (after the opening quote),
with `''` denoting an escaped quote.  Returns the literal's contents and
the remaining input, or `none` on an unterminated literal.  A NUL
character ends the SQL text in SQLite's lexer, so a literal still open
when NUL is reached is unterminated: a syntax error. -/
def readLit : List Char → List Char → Option (String × List Char)
  | _, [] => none
  | acc, c :: cs =>
    if c = '\'' then
      match cs with
      | [] => some (String.mk acc, [])
      | c2 :: cs2 =>
        if c2 = '\'' then readLit (acc ++ ['\'']) cs2
        else some (String.mk acc, c2 :: cs2)
    else if c = '\x00' then none
    else
      readLit (acc ++ [c]) cs

/-- Read a maximal run of characters satisfying `p`. -/
def readWhile (p : Char → Bool) : List Char → List Char → List Char × List Char
  | acc, [] => (acc, [])
  | acc, c :: cs => if p c then readWhile p (acc ++ [c]) cs else (acc, c :: cs)

def isIdentChar (c : Char) : Bool := c.isAlphanum || c = '_'

def isSymChar (c : Char) : Bool :=
  c = '=' || c = ';' || c = '?' || c = '(' || c = ')' || c = ','

/-- Scan one lexical step: `some (none, rest)` skips whitespace or a comment,
`some (some t, rest)` produces a token, `none` is a lexical error. -/
def nextTok : List Char → Option (Option Tok × List Char)
  | [] => none
  | c :: cs =>
    if c.isWhitespace then some (none, cs)
    else if c = '-' then
      match cs with
      | '-' :: cs2 => some (none, skipComment cs2)
      | _ => none
    else if c = '\'' then
      match readLit [] cs with
      | some (s, rest) => some (some (Tok.lit s), rest)
      | none => none
    else if c.isDigit then
      match readWhile Char.isDigit [c] cs with
      | (ds, rest) => some (some (Tok.num (String.mk ds)), rest)
    else if c.isAlpha || c = '_' then
      match readWhile isIdentChar [c] cs with
      | (ds, rest) => some (some (Tok.ident (String.mk ds)), rest)
    else if isSymChar c then some (some (Tok.sym c), cs)
    else none

/-- Fuelled tokenizer loop; every step consumes at least one character, so
`length + 1` fuel always suffices. -/
def tokenizeAux : Nat → List Char → Option (List Tok)
  | _, [] => some []
  | 0, _ :: _ => none
  | fuel + 1, c :: cs =>
    match nextTok (c :: cs) with
    | none => none
    | some (ot, rest) =>
      match tokenizeAux fuel rest with
      | none => none
      | some ts =>
        match ot with
        | some t => some (t :: ts)
        | none => some ts

def tokenize (s : String) : Option (List Tok) :=
  tokenizeAux (s.data.length + 1) s.data

/-- A row of the `users` table. -/
structure Row where
  name : String
  secret : String
deriving DecidableEq

/-- Database state: `none` when the `users` table does not exist. -/
abbrev Db := Option (List Row)

/-- SQLite values flowing through the modelled fragment. -/
inductive Value where
  | text (s : String)
  | int (n : Int)
deriving DecidableEq

inductive Operand where
  | colName
  | colSecret
  | litS (s : String)
  | litN (n : Nat)
  | param (i : Nat)
deriving DecidableEq

inductive Cond where
  | cmpEq (a b : Operand)
  | or (a b : Cond)
deriving DecidableEq

inductive Stmt where
  | select (c : Cond) (nParams : Nat)
  | insertRow (name secret : String)
  | dropTable
  | createTable
deriving DecidableEq

/-- Python exception kinds raised on the modelled paths. -/
inductive PyErr where
  | typeError
  | operationalError
  | programmingError
deriving DecidableEq

/-- Numeric value of a digit run. -/
def digitsToNat : List Char → Nat → Nat
  | [], acc => acc
  | c :: cs, acc => digitsToNat cs (acc * 10 + (c.toNat - 48))

/-- Parse one comparison operand, threading the index of the next `?`. -/
def parseOperand : Tok → Nat → Option (Operand × Nat)
  | Tok.ident "name", k => some (Operand.colName, k)
  | Tok.ident "secret", k => some (Operand.colSecret, k)
  | Tok.lit s, k => some (Operand.litS s, k)
  | Tok.num s, k => some (Operand.litN (digitsToNat s.data 0), k)
  | Tok.sym '?', k => some (Operand.param k, k + 1)
  | _, _ => none

/-- Parse an `OR`-chain of `=`-comparisons. -/
def parseOrChain : Nat → List Tok → Option (Cond × List Tok × Nat)
  | k, a :: Tok.sym '=' :: b :: rest =>
    match parseOperand a k with
    | none => none
    | some (o1, k1) =>
      match parseOperand b k1 with
      | none => none
      | some (o2, k2) =>
        match rest with
        | Tok.ident "OR" :: rest2 =>
          match parseOrChain k2 rest2 with
          | none => none
          | some (c2, rest3, k3) => some (Cond.or (Cond.cmpEq o1 o2) c2, rest3, k3)
        | _ => some (Cond.cmpEq o1 o2, rest, k2)
  | _, _ => none

/-- After a statement: end of input or one terminating `;` is accepted;
tokens after a `;` are a second statement (`ProgrammingError` in `sqlite3`). -/
def parseEnd : List Tok → Except PyErr Unit
  | [] => Except.ok ()
  | [Tok.sym ';'] => Except.ok ()
  | Tok.sym ';' :: _ :: _ => Except.error PyErr.programmingError
  | _ => Except.error PyErr.operationalError

def parseSelect : List Tok → Except PyErr Stmt
  | Tok.ident "secret" :: Tok.ident "FROM" :: Tok.ident "users" :: Tok.ident "WHERE" :: rest =>
    match parseOrChain 0 rest with
    | none => Except.error PyErr.operationalError
    | some (c, rest2, k) =>
      match parseEnd rest2 with
      | Except.ok _ => Except.ok (Stmt.select c k)
      | Except.error e => Except.error e
  | _ => Except.error PyErr.operationalError

def parseInsert : List Tok → Except PyErr Stmt
  | Tok.ident "INTO" :: Tok.ident "users" :: Tok.sym '(' :: Tok.ident "name" ::
      Tok.sym ',' :: Tok.ident "secret" :: Tok.sym ')' :: Tok.ident "VALUES" ::
      Tok.sym '(' :: Tok.lit n :: Tok.sym ',' :: Tok.lit s :: Tok.sym ')' :: rest =>
    match parseEnd rest with
    | Except.ok _ => Except.ok (Stmt.insertRow n s)
    | Except.error e => Except.error e
  | _ => Except.error PyErr.operationalError

def parseDrop : List Tok → Except PyErr Stmt
  | Tok.ident "TABLE" :: Tok.ident "IF" :: Tok.ident "EXISTS" :: Tok.ident "users" :: rest =>
    match parseEnd rest with
    | Except.ok _ => Except.ok Stmt.dropTable
    | Except.error e => Except.error e
  | _ => Except.error PyErr.operationalError

def parseCreate : List Tok → Except PyErr Stmt
  | Tok.ident "TABLE" :: Tok.ident "IF" :: Tok.ident "NOT" :: Tok.ident "EXISTS" ::
      Tok.ident "users" :: Tok.sym '(' :: Tok.ident "name" :: Tok.ident "text" ::
      Tok.ident "NOT" :: Tok.ident "NULL" :: Tok.sym ',' :: Tok.ident "secret" ::
      Tok.ident "text" :: Tok.ident "NOT" :: Tok.ident "NULL" :: Tok.sym ')' :: rest =>
    match parseEnd rest with
    | Except.ok _ => Except.ok Stmt.createTable
    | Except.error e => Except.error e
  | _ => Except.error PyErr.operationalError

def parseStmt : List Tok → Except PyErr Stmt
  | Tok.ident "SELECT" :: rest => parseSelect rest
  | Tok.ident "INSERT" :: rest => parseInsert rest
  | Tok.ident "DROP" :: rest => parseDrop rest
  | Tok.ident "CREATE" :: rest => parseCreate rest
  | _ => Except.error PyErr.operationalError

def parseSql (sql : String) : Except PyErr Stmt :=
  match tokenize sql with
  | none => Except.error PyErr.operationalError
  | some toks => parseStmt toks

def evalOperand (args : List Value) (r : Row) : Operand → Value
  | Operand.colName => Value.text r.name
  | Operand.colSecret => Value.text r.secret
  | Operand.litS s => Value.text s
  | Operand.litN n => Value.int n
  | Operand.param i => (args[i]?).getD (Value.int 0)

def evalCond (args : List Value) (r : Row) : Cond → Bool
  | Cond.cmpEq a b => decide (evalOperand args r a = evalOperand args r b)
  | Cond.or a b => evalCond args r a || evalCond args r b

/-- `cur.execute(sql, args)`: CPython's `sqlite3` first rejects query text
containing U+0000 ("the query contains a null character"); otherwise parse,
then run the statement against the current database state, returning the
new state and the fetched rows (each result row is the selected `secret`). -/
def execute (db : Db) (sql : String) (args : List Value) :
    Except PyErr (Db × List String) :=
  if '\x00' ∈ sql.data then Except.error PyErr.programmingError
  else
  match parseSql sql with
  | Except.error e => Except.error e
  | Except.ok Stmt.dropTable => Except.ok (none, [])
  | Except.ok Stmt.createTable => Except.ok (some (db.getD []), [])
  | Except.ok (Stmt.insertRow n s) =>
    match db with
    | none => Except.error PyErr.operationalError
    | some rows => Except.ok (some (rows ++ [⟨n, s⟩]), [])
  | Except.ok (Stmt.select c k) =>
    match db with
    | none => Except.error PyErr.operationalError
    | some rows =>
      if k = args.length then
        Except.ok (db, rows.filterMap fun r =>
          if evalCond args r c then some r.secret else none)
      else Except.error PyErr.programmingError

/-- The script's `create_table` DDL string (verbatim). -/
def create_table : String :=
  "\n    CREATE TABLE IF NOT EXISTS users (\n        name text NOT NULL,\n        secret text NOT NULL\n    )\n"

/-- The script's `data` mapping, in insertion order. -/
def data : List (String × String) :=
  [("Alice", "Alice secret info"), ("Bob", "Bob secret info"),
   ("Carol", "Carol secret info")]

/-- The f-string `INSERT` issued by the setup loop (verbatim shape). -/
def insertStmt (name secret : String) : String :=
  "INSERT INTO users(name, secret) VALUES('" ++ name ++ "', '" ++ secret ++ "')"

/-- The setup block: drop, create, then bulk-insert `data` with f-strings. -/
def setupFrom (d : Db) : Except PyErr Db := do
  let r1 ← execute d "DROP TABLE IF EXISTS users" []
  let r2 ← execute r1.1 create_table []
  let rF ← data.foldlM (fun db p => do
    let r ← execute db (insertStmt p.1 p.2) []
    pure r.1) r2.1
  pure rF

def rows0 : List Row :=
  [⟨"Alice", "Alice secret info"⟩, ⟨"Bob", "Bob secret info"⟩,
   ⟨"Carol", "Carol secret info"⟩]

/-- The store contents after the setup block. -/
def db0 : Db := some rows0

/-- The store right after drop-and-recreate, before any insert. -/
def freshDb : Db := some []

/-- Query text built by the unsafe f-string lookup. -/
def unsafeQuery (name : String) : String :=
  "SELECT secret FROM users WHERE name = '" ++ name ++ "'"

/-- Fixed query text of the safe bound-parameter lookup. -/
def safeQuery : String := "SELECT secret FROM users WHERE name = ?"

/-- `print_secrets`: unsafe, interpolates the key into the query text.
Models the printed lines as the returned list of secrets. -/
def print_secrets (db : Db) (name : String) : Except PyErr (List String) :=
  (execute db (unsafeQuery name) []).map Prod.snd

/-- `safe_print_secrets`: binds the key as a positional parameter. -/
def safe_print_secrets (db : Db) (name : String) : Except PyErr (List String) :=
  (execute db safeQuery [Value.text name]).map Prod.snd

/-- One item yielded by iterating a `string.templatelib.Template`:
a literal string or an `Interpolation` carrying its value. -/
inductive TItem where
  | str (s : String)
  | interp (v : Value)
deriving DecidableEq

/-- The argument passed to `sanitize_sql`: a `Template`, or a plain
(already concatenated) string, which is not a `Template`. -/
inductive PyObj where
  | template (items : List TItem)
  | pystr (s : String)
deriving DecidableEq

/-- The accumulation loop of `sanitize_sql` (`parts`/`args` appends). -/
def sanitizeLoop (items : List TItem) : List String × List Value :=
  items.foldl (fun pa it =>
    match it with
    | TItem.str s => (pa.1 ++ [s], pa.2)
    | TItem.interp v => (pa.1 ++ ["?"], pa.2 ++ [v])) ([], [])

/-- `sanitize_sql`: rejects non-`Template` input with `TypeError`, otherwise
replaces each interpolation by `?` and collects the values in order. -/
def sanitize_sql : PyObj → Except PyErr (String × List Value)
  | PyObj.pystr _ => Except.error PyErr.typeError
  | PyObj.template items =>
    Except.ok (String.join (sanitizeLoop items).1, (sanitizeLoop items).2)

/-- `TStringCursor.better_execute`: `execute(*sanitize_sql(template))`. -/
def better_execute (db : Db) (obj : PyObj) : Except PyErr (Db × List String) :=
  match sanitize_sql obj with
  | Except.error e => Except.error e
  | Except.ok (q, args) => execute db q args

/-- Items of the t-string `t"SELECT secret FROM users WHERE name = {name}"`. -/
def patchedItems (name : String) : List TItem :=
  [TItem.str "SELECT secret FROM users WHERE name = ",
   TItem.interp (Value.text name)]

/-- `patched_print_secrets`: the template-string lookup path. -/
def patched_print_secrets (db : Db) (name : String) : Except PyErr (List String) :=
  (better_execute db (PyObj.template (patchedItems name))).map Prod.snd

/-- Spec-side reading of the sanitizer's query text: literal segments
concatenated in order, each interpolation slot replaced by `?`. -/
def specQueryText : List TItem → String
  | [] => ""
  | TItem.str s :: rest => s ++ specQueryText rest
  | TItem.interp _ :: rest => "?" ++ specQueryText rest

/-- Spec-side reading of the sanitizer's argument list: the interpolated
values in left-to-right order. -/
def specArgs : List TItem → List Value
  | [] => []
  | TItem.str _ :: rest => specArgs rest
  | TItem.interp v :: rest => v :: specArgs rest

/-- A template with zero interpolation slots. -/
def onlyLiterals : List TItem → Bool
  | [] => true
  | TItem.str _ :: rest => onlyLiterals rest
  | TItem.interp _ :: _ => false

/-- No two rows share a `name`. -/
def distinctNames : List Row → Bool
  | [] => true
  | r :: rs => (rs.all fun x => decide (x.name ≠ r.name)) && distinctNames rs

def namesUnique : Db → Bool
  | none => true
  | some rows => distinctNames rows

/-- States of the record store reachable by the script's operations: the
setup block from an arbitrary initial file state, followed by any sequence
of the three lookup operations (with arbitrary keys). -/
inductive Reachable : Db → Prop where
  | init : ∀ d0 d, setupFrom d0 = Except.ok d → Reachable d
  | unsafeQ : ∀ d k r, Reachable d →
      execute d (unsafeQuery k) [] = Except.ok r → Reachable r.1
  | safeQ : ∀ d k r, Reachable d →
      execute d safeQuery [Value.text k] = Except.ok r → Reachable r.1
  | patchedQ : ∀ d k r, Reachable d →
      better_execute d (PyObj.template (patchedItems k)) = Except.ok r → Reachable r.1

/-- The list of query-text pieces produced by the sanitizer loop. -/
def partsOf : List TItem → List String
  | [] => []
  | TItem.str s :: rest => s :: partsOf rest
  | TItem.interp _ :: rest => "?" :: partsOf rest

/-- Concatenation of just the literal segments of a template. -/
def litText : List TItem → String
  | [] => ""
  | TItem.str s :: rest => s ++ litText rest
  | TItem.interp _ :: rest => litText rest
/-- The secret value `Dave's secret`, which contains a quote character. -/
def quoteySecret : String := "Dave" ++ String.mk ['\''] ++ "s secret"

/-- A quote-free secret containing U+0000; CPython's `sqlite3` rejects any
query text containing a NUL character. -/
def nulSecret : String := "a\x00b"

theorem sanitizeLoop_go (items : List TItem) : ∀ (ps : List String) (as : List Value),
    (items.foldl (fun pa it =>
      match it with
      | TItem.str s => (pa.1 ++ [s], pa.2)
      | TItem.interp v => (pa.1 ++ ["?"], pa.2 ++ [v])) (ps, as)) =
    (ps ++ partsOf items, as ++ specArgs items) := by
  induction items with
  | nil => intro ps as; simp [partsOf, specArgs]
  | cons it rest ih =>
    intro ps as
    cases it with
    | str s => simp [List.foldl_cons, ih, partsOf, specArgs]
    | interp v => simp [List.foldl_cons, ih, partsOf, specArgs]

theorem sanitizeLoop_eq (items : List TItem) :
    sanitizeLoop items = (partsOf items, specArgs items) := by
  have h := sanitizeLoop_go items [] []
  simpa [sanitizeLoop] using h

theorem join_cons (s : String) (l : List String) :
    String.join (s :: l) = s ++ String.join l := by
  apply String.ext
  simp [String.data_join, String.data_append]

theorem join_partsOf (items : List TItem) :
    String.join (partsOf items) = specQueryText items := by
  induction items with
  | nil => rfl
  | cons it rest ih =>
    cases it with
    | str s => rw [partsOf, join_cons, ih, specQueryText]
    | interp v => rw [partsOf, join_cons, ih, specQueryText]

/-- Characterization of the sanitizer on any structured template. -/
theorem sanitize_sql_template (items : List TItem) :
    sanitize_sql (PyObj.template items) =
      Except.ok (specQueryText items, specArgs items) := by
  rw [sanitize_sql, sanitizeLoop_eq, join_partsOf]

/-- C1: for the key `"Alice' OR 1=1; -- "` against the three-record store
produced by setup, the safe bound-parameter lookup returns an empty
sequence, while the unsafe string-interpolating lookup returns all three
secrets. -/
theorem c1_injection_contrast :
    setupFrom none = Except.ok db0 ∧
    safe_print_secrets db0 "Alice' OR 1=1; -- " = Except.ok [] ∧
    print_secrets db0 "Alice' OR 1=1; -- " =
      Except.ok ["Alice secret info", "Bob secret info", "Carol secret info"] := by
  decide

/-- C3: on every structured template, `sanitize_sql` returns the template's
literal segments concatenated in order with each interpolation slot replaced
by the placeholder `?`, together with the interpolated values in
left-to-right order. -/
theorem c3_sanitizer_decomposition (items : List TItem) :
    sanitize_sql (PyObj.template items) =
      Except.ok (specQueryText items, specArgs items) :=
  sanitize_sql_template items

/-- C2: whenever a structured template corresponds to an explicit
placeholder call `(q, args)` (that is, sanitizing it yields exactly that
query text and argument list), the query text is byte-identical to the
placeholder form of the template, the argument list is the template's
values in positional order, and the structured-template execution path
(`better_execute`) returns exactly what the explicit-placeholder call
(`execute q args`) returns, on every database state. -/
theorem c2_template_placeholder_equiv (db : Db) (items : List TItem)
    (q : String) (args : List Value)
    (h : sanitize_sql (PyObj.template items) = Except.ok (q, args)) :
    q = specQueryText items ∧ args = specArgs items ∧
    better_execute db (PyObj.template items) = execute db q args := by
  have h2 := sanitize_sql_template items
  rw [h] at h2
  have hq : q = specQueryText items := by
    have := congrArg (fun x => match x with
      | Except.ok (p : String × List Value) => p.1
      | Except.error _ => "") h2
    simpa using this
  have ha : args = specArgs items := by
    have := congrArg (fun x => match x with
      | Except.ok (p : String × List Value) => p.2
      | Except.error _ => []) h2
    simpa using this
  refine ⟨hq, ha, ?_⟩
  rw [better_execute, h]

/-- C2 witness: the template used by `patched_print_secrets` with key
`"Alice"` corresponds to the explicit call on `safeQuery`, and the two
paths coincide on the setup store. -/
theorem c2_template_placeholder_equiv_witness :
    safeQuery = specQueryText (patchedItems "Alice") ∧
    [Value.text "Alice"] = specArgs (patchedItems "Alice") ∧
    better_execute db0 (PyObj.template (patchedItems "Alice")) =
      execute db0 safeQuery [Value.text "Alice"] :=
  c2_template_placeholder_equiv db0 (patchedItems "Alice") safeQuery
    [Value.text "Alice"] (by decide)

/-- C4: `sanitize_sql` fails with a `TypeError` exactly on arguments that
are not structured templates (in particular on a plain concatenated
string), and on a structured template it never raises. -/
theorem c4_type_mismatch_iff :
    (∀ obj, sanitize_sql obj = Except.error PyErr.typeError ↔
      ∀ items, obj ≠ PyObj.template items) ∧
    (∀ items e, sanitize_sql (PyObj.template items) ≠ Except.error e) := by
  constructor
  · intro obj
    cases obj with
    | template items =>
      constructor
      · intro h
        rw [sanitize_sql_template items] at h
        exact absurd h (by simp)
      · intro h
        exact absurd rfl (h items)
    | pystr s =>
      constructor
      · intro _ items h
        exact PyObj.noConfusion h
      · intro _
        rfl
  · intro items e h
    rw [sanitize_sql_template items] at h
    exact Except.noConfusion h

/-- C6: each of the three stored keys yields, through the safe lookup on
the setup store, exactly the one secret associated to it by the fixed
initialization mapping `data`. -/
theorem c6_stored_keys :
    setupFrom none = Except.ok db0 ∧
    ∀ p ∈ data, safe_print_secrets db0 p.1 = Except.ok [p.2] := by
  constructor
  · decide
  · decide

/-- C6 witness: instantiation at the stored key `"Bob"`. -/
theorem c6_stored_keys_witness :
    safe_print_secrets db0 "Bob" = Except.ok ["Bob secret info"] :=
  c6_stored_keys.2 ("Bob", "Bob secret info") (by decide)

/-- C10: a structured template with zero interpolation slots is not
rejected: `sanitize_sql` returns its concatenated literal text unchanged
and an empty argument list. -/
theorem c10_pure_literal_template (items : List TItem)
    (h : onlyLiterals items = true) :
    sanitize_sql (PyObj.template items) = Except.ok (litText items, []) := by
  rw [sanitize_sql_template items]
  have : specQueryText items = litText items ∧ specArgs items = [] := by
    induction items with
    | nil => exact ⟨rfl, rfl⟩
    | cons it rest ih =>
      cases it with
      | str s =>
        rw [onlyLiterals] at h
        obtain ⟨h1, h2⟩ := ih h
        exact ⟨by rw [specQueryText, litText, h1], by rw [specArgs, h2]⟩
      | interp v =>
        exact absurd h (by rw [onlyLiterals]; exact Bool.false_ne_true)
  rw [this.1, this.2]

/-- C10 witness: a purely literal one-segment template passes through. -/
theorem c10_pure_literal_template_witness :
    onlyLiterals [TItem.str "SELECT secret FROM users WHERE name = 'Alice'"] = true ∧
    sanitize_sql (PyObj.template [TItem.str "SELECT secret FROM users WHERE name = 'Alice'"]) =
      Except.ok (litText [TItem.str "SELECT secret FROM users WHERE name = 'Alice'"], []) :=
  ⟨by decide, c10_pure_literal_template _ (by decide)⟩

theorem safeQuery_parse :
    parseSql safeQuery =
      Except.ok (Stmt.select (Cond.cmpEq Operand.colName (Operand.param 0)) 1) := by
  decide

/-- C7: the safe bound-parameter lookup returns an empty sequence for every
key that differs from every stored record's name. -/
theorem c7_unmatched_key (k : String) (h : ∀ r ∈ rows0, k ≠ r.name) :
    safe_print_secrets db0 k = Except.ok [] := by
  have h1 : ¬("Alice" = k) := fun he =>
    h ⟨"Alice", "Alice secret info"⟩ (by decide) he.symm
  have h2 : ¬("Bob" = k) := fun he =>
    h ⟨"Bob", "Bob secret info"⟩ (by decide) he.symm
  have h3 : ¬("Carol" = k) := fun he =>
    h ⟨"Carol", "Carol secret info"⟩ (by decide) he.symm
  unfold safe_print_secrets execute
  rw [safeQuery_parse]
  simp [db0, rows0, evalCond, evalOperand, h1, h2, h3]
  rfl

/-- C7 witness: the unmatched key `"Dave"` yields no secrets. -/
theorem c7_unmatched_key_witness :
    (∀ r ∈ rows0, "Dave" ≠ r.name) ∧ safe_print_secrets db0 "Dave" = Except.ok [] :=
  ⟨by decide, c7_unmatched_key "Dave" (by decide)⟩

theorem setupFrom_eq (d : Db) : setupFrom d = Except.ok db0 := by
  unfold setupFrom
  rw [show execute d "DROP TABLE IF EXISTS users" [] =
    Except.ok ((none : Db), ([] : List String)) from rfl]
  rfl

/-- Inversion for one tokenizer step that yields a token. -/
theorem tok_inv_tok (f : Nat) (cs rest : List Char) (t : Tok) (ts : List Tok)
    (hn : nextTok cs = some (some t, rest)) (h : tokenizeAux f cs = some ts) :
    ∃ f2 ts2, f = f2 + 1 ∧ tokenizeAux f2 rest = some ts2 ∧ ts = t :: ts2 := by
  cases cs with
  | nil => exact Option.noConfusion hn
  | cons c cs2 =>
    cases f with
    | zero => exact Option.noConfusion h
    | succ f2 =>
      simp only [tokenizeAux, hn] at h
      cases h2 : tokenizeAux f2 rest with
      | none => rw [h2] at h; exact Option.noConfusion h
      | some ts2 =>
        rw [h2] at h
        refine ⟨f2, ts2, rfl, h2, ?_⟩
        cases h
        rfl

theorem parse_unsafe_shape (k : String) (st : Stmt)
    (hp : parseSql (unsafeQuery k) = Except.ok st) : ∃ c n, st = Stmt.select c n := by
  unfold parseSql at hp
  cases ht : tokenize (unsafeQuery k) with
  | none => rw [ht] at hp; exact Except.noConfusion hp
  | some ts =>
    rw [ht] at hp
    have hq : (unsafeQuery k).data =
        "SELECT secret FROM users WHERE name = '".data ++ (k.data ++ "'".data) := by
      simp [unsafeQuery, String.data_append]
    have hn : ∃ rest, nextTok ((unsafeQuery k).data) =
        some (some (Tok.ident "SELECT"), rest) := by
      rw [hq]; exact ⟨_, rfl⟩
    obtain ⟨rest, hn⟩ := hn
    unfold tokenize at ht
    obtain ⟨f2, ts2, hf, ht2, rfl⟩ := tok_inv_tok _ _ _ _ _ hn ht
    have hps : parseSelect ts2 = Except.ok st := hp
    unfold parseSelect at hps
    split at hps
    · split at hps
      · exact Except.noConfusion hps
      · split at hps
        · cases hps; exact ⟨_, _, rfl⟩
        · exact Except.noConfusion hps
    · exact Except.noConfusion hps

theorem execute_select_pres (d : Db) (sql : String) (args : List Value)
    (c : Cond) (n : Nat) (r : Db × List String)
    (hp : parseSql sql = Except.ok (Stmt.select c n))
    (h : execute d sql args = Except.ok r) : r.1 = d := by
  cases d with
  | none =>
    simp only [execute, hp] at h
    split at h
    · exact Except.noConfusion h
    · exact Except.noConfusion h
  | some rows =>
    simp only [execute, hp] at h
    split at h
    · exact Except.noConfusion h
    · rcases Decidable.em (n = args.length) with hn | hn
      · rw [if_pos hn] at h
        cases h
        rfl
      · rw [if_neg hn] at h
        exact Except.noConfusion h

theorem execute_unsafe_pres (d : Db) (k : String) (r : Db × List String)
    (h : execute d (unsafeQuery k) [] = Except.ok r) : r.1 = d := by
  cases hp : parseSql (unsafeQuery k) with
  | error e =>
    simp only [execute, hp] at h
    split at h
    · exact Except.noConfusion h
    · exact Except.noConfusion h
  | ok st =>
    obtain ⟨c, n, rfl⟩ := parse_unsafe_shape k st hp
    exact execute_select_pres d _ [] c n r hp h

theorem execute_patched_pres (d : Db) (k : String) (r : Db × List String)
    (h : better_execute d (PyObj.template (patchedItems k)) = Except.ok r) :
    r.1 = d := by
  have hs : better_execute d (PyObj.template (patchedItems k)) =
      execute d safeQuery [Value.text k] := rfl
  rw [hs] at h
  exact execute_select_pres d _ _ _ _ r safeQuery_parse h

/-- C8: every state of the record store reachable by the script's setup and
its (read-only) lookup operations has no two rows sharing a `name`. -/
theorem c8_name_uniqueness (d : Db) (h : Reachable d) : namesUnique d = true := by
  induction h with
  | init d0 d h0 =>
    rw [setupFrom_eq d0] at h0
    cases h0
    decide
  | unsafeQ d k r _ hex ih => rw [execute_unsafe_pres d k r hex]; exact ih
  | safeQ d k r _ hex ih =>
    rw [execute_select_pres d _ _ _ _ r safeQuery_parse hex]; exact ih
  | patchedQ d k r _ hex ih => rw [execute_patched_pres d k r hex]; exact ih

/-- C8 witness: the setup store is reachable and its names are distinct. -/
theorem c8_name_uniqueness_witness :
    Reachable db0 ∧ namesUnique db0 = true :=
  ⟨Reachable.init none db0 (by decide),
   c8_name_uniqueness db0 (Reachable.init none db0 (by decide))⟩

theorem readLit_no_quote (s : List Char) : ∀ (acc rest : List Char), '\'' ∉ s →
    '\x00' ∉ s → rest.head? ≠ some '\'' →
    readLit acc (s ++ '\'' :: rest) = some (String.mk (acc ++ s), rest) := by
  induction s with
  | nil =>
    intro acc rest _ _ hr
    cases rest with
    | nil => simp [readLit]
    | cons r rs =>
      have hr2 : ¬(r = '\'') := by simpa using hr
      rw [readLit.eq_def]
      simp [hr2]
  | cons a s2 ih =>
    intro acc rest hq h0 hr
    have ha : ¬(a = '\'') := fun e => hq (by rw [e]; exact List.mem_cons_self _ _)
    have ha0 : ¬(a = '\x00') := fun e => h0 (by rw [e]; exact List.mem_cons_self _ _)
    have hin : '\'' ∉ s2 := fun m => hq (List.mem_cons_of_mem a m)
    have hin0 : '\x00' ∉ s2 := fun m => h0 (List.mem_cons_of_mem a m)
    have hstep : readLit acc ((a :: s2) ++ '\'' :: rest) =
        readLit (acc ++ [a]) (s2 ++ '\'' :: rest) := by
      rw [List.cons_append, readLit.eq_def]
      simp only []
      rw [if_neg ha, if_neg ha0]
    rw [hstep, ih (acc ++ [a]) rest hin hin0 hr]
    simp

theorem nextTok_lit (l rest : List Char) (hq : '\'' ∉ l) (h0 : '\x00' ∉ l)
    (hr : rest.head? ≠ some '\'') :
    nextTok ('\'' :: (l ++ '\'' :: rest)) = some (some (Tok.lit (String.mk l)), rest) := by
  have h := readLit_no_quote l [] rest hq h0 hr
  simp only [nextTok, if_neg (by decide : ¬('\''.isWhitespace = true)),
    if_neg (by decide : ¬('\'' = '-')), if_pos rfl, h]
  simp

theorem tokStep_tok {f : Nat} {cs rest : List Char} {t : Tok} {ts : List Tok}
    (hn : nextTok cs = some (some t, rest)) (h : tokenizeAux f rest = some ts) :
    tokenizeAux (f + 1) cs = some (t :: ts) := by
  cases cs with
  | nil => exact Option.noConfusion hn
  | cons c cs2 => simp only [tokenizeAux, hn, h]

theorem tokStep_skip {f : Nat} {cs rest : List Char} {ts : List Tok}
    (hn : nextTok cs = some (none, rest)) (h : tokenizeAux f rest = some ts) :
    tokenizeAux (f + 1) cs = some ts := by
  cases cs with
  | nil => exact Option.noConfusion hn
  | cons c cs2 => simp only [tokenizeAux, hn, h]

theorem tokenizeAux_nil (f : Nat) : tokenizeAux f [] = some [] := by
  cases f with
  | zero => rfl
  | succ g => rfl

theorem tokenizeAux_mono : ∀ (f f2 : Nat) (cs : List Char) (ts : List Tok),
    tokenizeAux f cs = some ts → f ≤ f2 → tokenizeAux f2 cs = some ts := by
  intro f
  induction f with
  | zero =>
    intro f2 cs ts h _
    cases cs with
    | nil => rw [tokenizeAux_nil] at h; rw [tokenizeAux_nil]; exact h
    | cons c cs2 => exact Option.noConfusion h
  | succ f ih =>
    intro f2 cs ts h hle
    cases cs with
    | nil => rw [tokenizeAux_nil] at h; rw [tokenizeAux_nil]; exact h
    | cons c cs2 =>
      cases hn : nextTok (c :: cs2) with
      | none =>
        simp only [tokenizeAux, hn] at h
        exact Option.noConfusion h
      | some pr =>
        obtain ⟨ot, rest⟩ := pr
        simp only [tokenizeAux, hn] at h
        cases h2 : tokenizeAux f rest with
        | none => rw [h2] at h; exact Option.noConfusion h
        | some ts2 =>
          rw [h2] at h
          obtain ⟨f3, rfl⟩ : ∃ f3, f2 = f3 + 1 := ⟨f2 - 1, by omega⟩
          have h3 := ih f3 rest ts2 h2 (by omega)
          simp only [tokenizeAux, hn, h3]
          exact h

theorem insertStmt_data (n s : String) :
    (insertStmt n s).data =
      ("INSERT INTO users(name, secret) VALUES(" : String).data ++
        ('\'' :: (n.data ++ ('\'' :: ',' :: ' ' :: '\'' :: (s.data ++ ['\'', ')'])))) := by
  have h1 : ("INSERT INTO users(name, secret) VALUES('" : String).data =
      ("INSERT INTO users(name, secret) VALUES(" : String).data ++ ['\''] := rfl
  have h2 : ("', '" : String).data = '\'' :: ',' :: ' ' :: ['\''] := rfl
  have h3 : ("')" : String).data = ['\'', ')'] := rfl
  simp [insertStmt, String.data_append, h1, h2, h3]

theorem tok_pre_insert (tail : List Char) (f : Nat) (ts : List Tok)
    (h : tokenizeAux f tail = some ts) :
    tokenizeAux (f + 14) (("INSERT INTO users(name, secret) VALUES(" : String).data ++ tail) =
      some (Tok.ident "INSERT" :: Tok.ident "INTO" :: Tok.ident "users" :: Tok.sym '(' ::
        Tok.ident "name" :: Tok.sym ',' :: Tok.ident "secret" :: Tok.sym ')' ::
        Tok.ident "VALUES" :: Tok.sym '(' :: ts) := by
  refine tokStep_tok rfl ?_
  refine tokStep_skip rfl ?_
  refine tokStep_tok rfl ?_
  refine tokStep_skip rfl ?_
  refine tokStep_tok rfl ?_
  refine tokStep_tok rfl ?_
  refine tokStep_tok rfl ?_
  refine tokStep_tok rfl ?_
  refine tokStep_skip rfl ?_
  refine tokStep_tok rfl ?_
  refine tokStep_tok rfl ?_
  refine tokStep_skip rfl ?_
  refine tokStep_tok rfl ?_
  refine tokStep_tok rfl ?_
  exact h

theorem insertStmt_tokens (n s : String) (hn : '\'' ∉ n.data) (hn0 : '\x00' ∉ n.data)
    (hs : '\'' ∉ s.data) (hs0 : '\x00' ∉ s.data) :
    tokenize (insertStmt n s) =
      some [Tok.ident "INSERT", Tok.ident "INTO", Tok.ident "users", Tok.sym '(',
        Tok.ident "name", Tok.sym ',', Tok.ident "secret", Tok.sym ')',
        Tok.ident "VALUES", Tok.sym '(', Tok.lit n, Tok.sym ',', Tok.lit s,
        Tok.sym ')'] := by
  have hmkn : String.mk n.data = n := String.ext rfl
  have hmks : String.mk s.data = s := String.ext rfl
  have h0 : tokenizeAux 1 [')'] = some [Tok.sym ')'] := rfl
  have h1 : tokenizeAux 2 ('\'' :: (s.data ++ ['\'', ')'])) =
      some [Tok.lit s, Tok.sym ')'] := by
    have hst := nextTok_lit s.data [')'] hs hs0 (by simp)
    rw [hmks] at hst
    exact tokStep_tok hst h0
  have h2 : tokenizeAux 3 (' ' :: '\'' :: (s.data ++ ['\'', ')'])) =
      some [Tok.lit s, Tok.sym ')'] := tokStep_skip rfl h1
  have h3 : tokenizeAux 4 (',' :: ' ' :: '\'' :: (s.data ++ ['\'', ')'])) =
      some [Tok.sym ',', Tok.lit s, Tok.sym ')'] := tokStep_tok rfl h2
  have h4 : tokenizeAux 5
      ('\'' :: (n.data ++ ('\'' :: ',' :: ' ' :: '\'' :: (s.data ++ ['\'', ')'])))) =
      some [Tok.lit n, Tok.sym ',', Tok.lit s, Tok.sym ')'] := by
    have hnt := nextTok_lit n.data (',' :: ' ' :: '\'' :: (s.data ++ ['\'', ')'])) hn hn0 (by simp)
    rw [hmkn] at hnt
    exact tokStep_tok hnt h3
  have h5 := tok_pre_insert _ 5 _ h4
  have hlen : ("INSERT INTO users(name, secret) VALUES(" : String).data.length = 39 := rfl
  unfold tokenize
  rw [insertStmt_data n s]
  refine tokenizeAux_mono 19 _ _ _ h5 ?_
  simp [List.length_append, hlen]

theorem insertStmt_parse (n s : String) (hn : '\'' ∉ n.data) (hn0 : '\x00' ∉ n.data)
    (hs : '\'' ∉ s.data) (hs0 : '\x00' ∉ s.data) :
    parseSql (insertStmt n s) = Except.ok (Stmt.insertRow n s) := by
  unfold parseSql
  rw [insertStmt_tokens n s hn hn0 hs hs0]
  rfl

theorem insert_execute (n s : String) (hn : '\'' ∉ n.data) (hn0 : '\x00' ∉ n.data)
    (hs : '\'' ∉ s.data) (hs0 : '\x00' ∉ s.data) :
    execute freshDb (insertStmt n s) [] = Except.ok (some [⟨n, s⟩], []) := by
  have hpre : '\x00' ∉ ("INSERT INTO users(name, secret) VALUES(" : String).data := by
    decide
  have hnul : '\x00' ∉ (insertStmt n s).data := by
    rw [insertStmt_data]
    intro hmem
    rcases List.mem_append.mp hmem with h | h
    · exact hpre h
    · rcases List.mem_cons.mp h with h | h
      · exact absurd h (by decide)
      · rcases List.mem_append.mp h with h | h
        · exact hn0 h
        · rcases List.mem_cons.mp h with h | h
          · exact absurd h (by decide)
          · rcases List.mem_cons.mp h with h | h
            · exact absurd h (by decide)
            · rcases List.mem_cons.mp h with h | h
              · exact absurd h (by decide)
              · rcases List.mem_cons.mp h with h | h
                · exact absurd h (by decide)
                · rcases List.mem_append.mp h with h | h
                  · exact hs0 h
                  · rcases List.mem_cons.mp h with h | h
                    · exact absurd h (by decide)
                    · rcases List.mem_cons.mp h with h | h
                      · exact absurd h (by decide)
                      · exact absurd h (by simp)
  unfold execute
  rw [if_neg hnul, insertStmt_parse n s hn hn0 hs hs0]
  rfl

theorem safe_single (n s : String) :
    safe_print_secrets (some [⟨n, s⟩]) n = Except.ok [s] := by
  unfold safe_print_secrets execute
  rw [safeQuery_parse]
  simp [evalCond, evalOperand]
  rfl


/-- The model carries CPython's NUL check: the setup-style insert of the
quote-free but NUL-containing secret is rejected, as the real
`cur.execute` rejects query text containing a null character.  This is
why the amended round-trip claim must exclude NUL as well as quotes. -/
theorem insert_nul_rejected :
    execute freshDb (insertStmt "Dave" nulSecret) [] =
      Except.error PyErr.programmingError := by
  decide

/-- C5 counterexample: the claim fails for the quote-containing secret
`Dave's secret`: the setup-style f-string insert of `("Dave", "Dave's
secret")` into a freshly created store is a syntax error (the quote
terminates the SQL literal early), so the subsequent safe lookup cannot
return the secret. -/
theorem c5_roundtrip_cex :
    ¬ ∃ db1, execute freshDb (insertStmt "Dave" quoteySecret) [] =
        Except.ok (db1, []) ∧
      safe_print_secrets db1 "Dave" = Except.ok [quoteySecret] := by
  rintro ⟨db1, h, -⟩
  rw [show execute freshDb (insertStmt "Dave" quoteySecret) [] =
    Except.error PyErr.operationalError from by decide] at h
  exact Except.noConfusion h

/-- C5 (amended): for every pair of text values containing no quote
character, the setup-style insert of `(name, secret)` into a freshly
created store succeeds and the safe bound-parameter lookup by `name`
returns exactly `secret`. -/
theorem c5_quote_free_roundtrip (name secret : String)
    (hn : '\'' ∉ name.data) (hn0 : '\x00' ∉ name.data)
    (hs : '\'' ∉ secret.data) (hs0 : '\x00' ∉ secret.data) :
    ∃ db1, execute freshDb (insertStmt name secret) [] = Except.ok (db1, []) ∧
      safe_print_secrets db1 name = Except.ok [secret] :=
  ⟨some [⟨name, secret⟩], insert_execute name secret hn hn0 hs hs0,
    safe_single name secret⟩

/-- C5 witness: the quote-free pair `("Dave", "dave info")` round-trips. -/
theorem c5_quote_free_roundtrip_witness :
    ('\'' ∉ ("Dave" : String).data) ∧ ('\x00' ∉ ("Dave" : String).data) ∧
    ('\'' ∉ ("dave info" : String).data) ∧ ('\x00' ∉ ("dave info" : String).data) ∧
    ∃ db1, execute freshDb (insertStmt "Dave" "dave info") [] =
        Except.ok (db1, []) ∧
      safe_print_secrets db1 "Dave" = Except.ok ["dave info"] :=
  ⟨by decide, by decide, by decide, by decide,
    c5_quote_free_roundtrip "Dave" "dave info" (by decide) (by decide) (by decide) (by decide)⟩

/-- C4 witness: a plain concatenated string is rejected with the type
mismatch error. -/
theorem c4_type_mismatch_iff_witness :
    sanitize_sql (PyObj.pystr "SELECT secret FROM users WHERE name = 'Alice'") =
      Except.error PyErr.typeError :=
  (c4_type_mismatch_iff.1 (PyObj.pystr "SELECT secret FROM users WHERE name = 'Alice'")).mpr
    (fun _ h => PyObj.noConfusion h)
